import Mathlib

/-!
Verification of the replication-analysis core of `go/inst/analysis_dao.go`
(orchestrator). The Go file aggregates per-master replica statistics from the
observation store, classifies each master-role row through an ordered guard
chain, filters the actionable result set, and records analysis transitions in
a changelog guarded by a per-instance `database_instance_last_analysis` fence.

The embedding below mirrors that file:
* `MasterRow` / `SlaveRow` carry the columns the SQL reads per group;
* the `count*` functions are the SQL aggregate expressions (lines 65-111);
* `aggregate` is the row-shaping part of the callback (lines 143-172);
* `classify` is the ordered if/else guard chain (lines 174-267);
* `AuditInstanceAnalysisInChangelog` is the fence upsert plus conditional
  changelog append (lines 303-338), with injectable storage failures for the
  three `err` sites;
* `GetReplicationAnalysis` is the per-row suppression / result-set / audit
  loop (lines 273-297), with the query error injected as data.

Machine integers are modelled as `Nat` (all quantities are SQL counts,
ports and timestamps, never subtracted below zero); storage failures are
modelled as `Except`/`Option` values.
-/

set_option autoImplicit false

namespace OrchAnalysis

/-- Storage-layer error, as surfaced by the Go `db` helpers. -/
abbrev DBError := String

/-- Identity of a database instance, Go struct `InstanceKey`: exact
hostname/port pair. -/
structure InstanceKey where
  Hostname : String
  Port : Nat
deriving DecidableEq, Repr

/-- The fixed taxonomy of analysis codes assigned by the guard chain of
`GetReplicationAnalysis` (plus the default `NoProblem` set at line 143). -/
inductive AnalysisCode where
  | NoProblem
  | DeadMasterWithoutSlaves
  | DeadMaster
  | DeadMasterAndSlaves
  | DeadMasterAndSomeSlaves
  | UnreachableMaster
  | MasterSingleSlaveNotReplicating
  | MasterSingleSlaveDead
  | AllMasterSlavesNotReplicating
  | AllMasterSlavesNotReplicatingOrDead
  | DeadCoMaster
  | DeadCoMasterAndSomeSlaves
  | UnreachableCoMaster
  | AllCoMasterSlavesNotReplicating
  | DeadIntermediateMasterWithSingleSlaveFailingToConnect
  | DeadIntermediateMasterWithSingleSlave
  | DeadIntermediateMaster
  | DeadIntermediateMasterAndSomeSlaves
  | UnreachableIntermediateMaster
  | AllIntermediateMasterSlavesFailingToConnectOrDead
  | AllIntermediateMasterSlavesNotReplicating
  | BinlogServerFailingToConnectToMaster
  | FirstTierSlaveFailingToConnectToMaster
deriving DecidableEq, Repr

open AnalysisCode

/-- Columns of the grouped `master_instance` read by the SQL query. Since all
`master_instance.*` columns are constant within one GROUP BY group, the
`MIN(...)` aggregates over them reduce to the column values themselves.
`last_io_error_matches_connect` stands for the boolean result of
`last_io_error RLIKE ... (connecting|reconnecting) to master ...`. -/
structure MasterRow where
  hostname : String
  port : Nat
  master_host : String
  master_port : Nat
  cluster_name : String
  cluster_alias : String
  last_checked : Nat
  last_seen : Nat
  last_attempted_check : Nat
  is_co_master : Bool
  slave_sql_running : Bool
  slave_io_running : Bool
  last_io_error_matches_connect : Bool
  replication_depth : Nat
  binlog_server : Bool
  pseudo_gtid : Bool
  supports_oracle_gtid : Bool
  mariadb_gtid : Bool
deriving DecidableEq, Repr

/-- Columns of one joined `slave_instance` row within the group. -/
structure SlaveRow where
  hostname : String
  port : Nat
  last_checked : Nat
  last_seen : Nat
  slave_io_running : Bool
  slave_sql_running : Bool
  last_io_error_matches_connect : Bool
  oracle_gtid : Bool
  binlog_server : Bool
deriving DecidableEq, Repr

/-- Freshness test of one replica: `slave_instance.last_checked <=
slave_instance.last_seen` (lines 66, 68, 72). -/
def slaveIsValid (s : SlaveRow) : Bool :=
  decide (s.last_checked ≤ s.last_seen)

/-- SQL `IFNULL(SUM(last_checked <= last_seen), 0)` (line 66). -/
def countValidSlaves (ss : List SlaveRow) : Nat :=
  ss.countP slaveIsValid

/-- SQL `IFNULL(SUM(valid AND slave_io_running != 0 AND slave_sql_running !=
0), 0)` (lines 68-71). -/
def countValidReplicatingSlaves (ss : List SlaveRow) : Nat :=
  ss.countP (fun s => slaveIsValid s && s.slave_io_running && s.slave_sql_running)

/-- SQL `IFNULL(SUM(valid AND slave_io_running = 0 AND last_io_error RLIKE
... AND slave_sql_running = 1), 0)` (lines 72-76). -/
def countSlavesFailingToConnectToMaster (ss : List SlaveRow) : Nat :=
  ss.countP (fun s =>
    slaveIsValid s && !s.slave_io_running && s.last_io_error_matches_connect
      && s.slave_sql_running)

/-- SQL `SUM(slave_instance.oracle_gtid)` (lines 103-105): counts over all
joined replica rows, valid or not. -/
def countOracleGTIDSlaves (ss : List SlaveRow) : Nat :=
  ss.countP (fun s => s.oracle_gtid)

/-- SQL `SUM(slave_instance.binlog_server)` (lines 106-108): counts over all
joined replica rows, valid or not. -/
def countBinlogServerSlaves (ss : List SlaveRow) : Nat :=
  ss.countP (fun s => s.binlog_server)

/-- The analysis entity filled by the row callback, Go struct
`ReplicationAnalysis` (fields as read at lines 145-172). The cluster
recovery metadata populated by the external `ReadRecoveryInfo` call and the
downtime end-timestamp fields, which no operation in this file reads again,
are not carried. -/
structure ReplicationAnalysis where
  AnalyzedInstanceKey : InstanceKey
  AnalyzedInstanceMasterKey : InstanceKey
  ClusterName : String
  ClusterAlias : String
  IsMaster : Bool
  IsCoMaster : Bool
  LastCheckValid : Bool
  CountSlaves : Nat
  CountValidSlaves : Nat
  CountValidReplicatingSlaves : Nat
  CountSlavesFailingToConnectToMaster : Nat
  ReplicationDepth : Nat
  IsFailingToConnectToMaster : Bool
  IsDowntimed : Bool
  IsBinlogServer : Bool
  OracleGTIDImmediateTopology : Bool
  PseudoGTIDImmediateTopology : Bool
  MariaDBGTIDImmediateTopology : Bool
  BinlogServerImmediateTopology : Bool
  SlaveHosts : List InstanceKey
  Analysis : AnalysisCode
  Description : String
deriving DecidableEq, Repr

/-- The row-shaping part of the query callback (lines 143-172): builds the
`ReplicationAnalysis` for one group from the master columns, the joined
replica rows and the downtime join result, before the guard chain runs.
`Analysis` starts as `NoProblem` (line 143) and `Description` as the Go zero
string. -/
def aggregate (pollSeconds : Nat) (m : MasterRow) (ss : List SlaveRow)
    (downtimed : Bool) : ReplicationAnalysis :=
  { AnalyzedInstanceKey := { Hostname := m.hostname, Port := m.port }
    AnalyzedInstanceMasterKey := { Hostname := m.master_host, Port := m.master_port }
    ClusterName := m.cluster_name
    ClusterAlias := m.cluster_alias
    IsMaster := m.master_host == "" || m.master_host == "_" || m.master_port == 0
    IsCoMaster := m.is_co_master
    LastCheckValid :=
      decide (m.last_checked ≤ m.last_seen)
        && decide (m.last_attempted_check ≤ m.last_seen + 2 * pollSeconds)
    CountSlaves := ss.length
    CountValidSlaves := countValidSlaves ss
    CountValidReplicatingSlaves := countValidReplicatingSlaves ss
    CountSlavesFailingToConnectToMaster := countSlavesFailingToConnectToMaster ss
    ReplicationDepth := m.replication_depth
    IsFailingToConnectToMaster :=
      m.slave_sql_running && !m.slave_io_running && m.last_io_error_matches_connect
    IsDowntimed := downtimed
    IsBinlogServer := m.binlog_server
    OracleGTIDImmediateTopology :=
      m.supports_oracle_gtid && countOracleGTIDSlaves ss == countValidSlaves ss
        && decide (0 < countValidSlaves ss)
    PseudoGTIDImmediateTopology := m.pseudo_gtid
    MariaDBGTIDImmediateTopology := m.mariadb_gtid
    BinlogServerImmediateTopology :=
      countBinlogServerSlaves ss == countValidSlaves ss
        && decide (0 < countValidSlaves ss)
    SlaveHosts := ss.map (fun s => { Hostname := s.hostname, Port := s.port })
    Analysis := NoProblem
    Description := "" }

/-- One guard of the classifier chain: the guard predicate over the
aggregated row, and the code/description pair it assigns. -/
structure AnalysisRule where
  guard : ReplicationAnalysis → Bool
  code : AnalysisCode
  desc : String

/-- The ordered guard chain of lines 174-267, one rule per `if`/`else if`
branch, in source order; evaluation is first match wins. -/
def analysisRules : List AnalysisRule :=
  [ { guard := fun a => a.IsMaster && !a.LastCheckValid && a.CountSlaves == 0
      code := DeadMasterWithoutSlaves
      desc := "Master cannot be reached by orchestrator and has no slave" },
    { guard := fun a => a.IsMaster && !a.LastCheckValid
        && a.CountValidSlaves == a.CountSlaves && a.CountValidReplicatingSlaves == 0
      code := DeadMaster
      desc := "Master cannot be reached by orchestrator and none of its slaves is replicating" },
    { guard := fun a => a.IsMaster && !a.LastCheckValid && a.CountSlaves > 0
        && a.CountValidSlaves == 0 && a.CountValidReplicatingSlaves == 0
      code := DeadMasterAndSlaves
      desc := "Master cannot be reached by orchestrator and none of its slaves is replicating" },
    { guard := fun a => a.IsMaster && !a.LastCheckValid
        && a.CountValidSlaves < a.CountSlaves && a.CountValidSlaves > 0
        && a.CountValidReplicatingSlaves == 0
      code := DeadMasterAndSomeSlaves
      desc := "Master cannot be reached by orchestrator; some of its slaves are unreachable and none of its reachable slaves is replicating" },
    { guard := fun a => a.IsMaster && !a.LastCheckValid && a.CountValidSlaves > 0
        && a.CountValidReplicatingSlaves > 0
      code := UnreachableMaster
      desc := "Master cannot be reached by orchestrator but it has replicating slaves; possibly a network/host issue" },
    { guard := fun a => a.IsMaster && a.LastCheckValid && a.CountSlaves == 1
        && a.CountValidSlaves == a.CountSlaves && a.CountValidReplicatingSlaves == 0
      code := MasterSingleSlaveNotReplicating
      desc := "Master is reachable but its single slave is not replicating" },
    { guard := fun a => a.IsMaster && a.LastCheckValid && a.CountSlaves == 1
        && a.CountValidSlaves == 0
      code := MasterSingleSlaveDead
      desc := "Master is reachable but its single slave is dead" },
    { guard := fun a => a.IsMaster && a.LastCheckValid && a.CountSlaves > 1
        && a.CountValidSlaves == a.CountSlaves && a.CountValidReplicatingSlaves == 0
      code := AllMasterSlavesNotReplicating
      desc := "Master is reachable but none of its slaves is replicating" },
    { guard := fun a => a.IsMaster && a.LastCheckValid && a.CountSlaves > 1
        && a.CountValidSlaves < a.CountSlaves && a.CountValidSlaves > 0
        && a.CountValidReplicatingSlaves == 0
      code := AllMasterSlavesNotReplicatingOrDead
      desc := "Master is reachable but none of its slaves is replicating" },
    { guard := fun a => a.IsCoMaster && !a.LastCheckValid && a.CountSlaves > 0
        && a.CountValidSlaves == a.CountSlaves && a.CountValidReplicatingSlaves == 0
      code := DeadCoMaster
      desc := "Co-master cannot be reached by orchestrator and none of its slaves is replicating" },
    { guard := fun a => a.IsCoMaster && !a.LastCheckValid && a.CountSlaves > 0
        && a.CountValidSlaves < a.CountSlaves && a.CountValidSlaves > 0
        && a.CountValidReplicatingSlaves == 0
      code := DeadCoMasterAndSomeSlaves
      desc := "Co-master cannot be reached by orchestrator; some of its slaves are unreachable and none of its reachable slaves is replicating" },
    { guard := fun a => a.IsCoMaster && !a.LastCheckValid && a.CountValidSlaves > 0
        && a.CountValidReplicatingSlaves > 0
      code := UnreachableCoMaster
      desc := "Co-master cannot be reached by orchestrator but it has replicating slaves; possibly a network/host issue" },
    { guard := fun a => a.IsCoMaster && a.LastCheckValid && a.CountSlaves > 0
        && a.CountValidReplicatingSlaves == 0
      code := AllCoMasterSlavesNotReplicating
      desc := "Co-master is reachable but none of its slaves is replicating" },
    { guard := fun a => !a.IsMaster && !a.LastCheckValid && a.CountSlaves == 1
        && a.CountValidSlaves == a.CountSlaves
        && a.CountSlavesFailingToConnectToMaster == a.CountSlaves
        && a.CountValidReplicatingSlaves == 0
      code := DeadIntermediateMasterWithSingleSlaveFailingToConnect
      desc := "Intermediate master cannot be reached by orchestrator and its (single) slave is failing to connect" },
    { guard := fun a => !a.IsMaster && !a.LastCheckValid && a.CountSlaves == 1
        && a.CountValidSlaves == a.CountSlaves && a.CountValidReplicatingSlaves == 0
      code := DeadIntermediateMasterWithSingleSlave
      desc := "Intermediate master cannot be reached by orchestrator and its (single) slave is not replicating" },
    { guard := fun a => !a.IsMaster && !a.LastCheckValid && a.CountSlaves > 1
        && a.CountValidSlaves == a.CountSlaves && a.CountValidReplicatingSlaves == 0
      code := DeadIntermediateMaster
      desc := "Intermediate master cannot be reached by orchestrator and none of its slaves is replicating" },
    { guard := fun a => !a.IsMaster && !a.LastCheckValid
        && a.CountValidSlaves < a.CountSlaves && a.CountValidSlaves > 0
        && a.CountValidReplicatingSlaves == 0
      code := DeadIntermediateMasterAndSomeSlaves
      desc := "Intermediate master cannot be reached by orchestrator; some of its slaves are unreachable and none of its reachable slaves is replicating" },
    { guard := fun a => !a.IsMaster && !a.LastCheckValid && a.CountValidSlaves > 0
        && a.CountValidReplicatingSlaves > 0
      code := UnreachableIntermediateMaster
      desc := "Intermediate master cannot be reached by orchestrator but it has replicating slaves; possibly a network/host issue" },
    { guard := fun a => !a.IsMaster && a.LastCheckValid && a.CountSlaves > 1
        && a.CountValidReplicatingSlaves == 0
        && a.CountSlavesFailingToConnectToMaster > 0
        && a.CountSlavesFailingToConnectToMaster == a.CountValidSlaves
      code := AllIntermediateMasterSlavesFailingToConnectOrDead
      desc := "Intermediate master is reachable but all of its slaves are failing to connect" },
    { guard := fun a => !a.IsMaster && a.LastCheckValid && a.CountSlaves > 0
        && a.CountValidReplicatingSlaves == 0
      code := AllIntermediateMasterSlavesNotReplicating
      desc := "Intermediate master is reachable but none of its slaves is replicating" },
    { guard := fun a => a.IsBinlogServer && a.IsFailingToConnectToMaster
      code := BinlogServerFailingToConnectToMaster
      desc := "Binlog server is unable to connect to its master" },
    { guard := fun a => a.ReplicationDepth == 1 && a.IsFailingToConnectToMaster
      code := FirstTierSlaveFailingToConnectToMaster
      desc := "1st tier slave (directly replicating from topology master) is unable to connect to the master" } ]

/-- The `(code, description)` pair the first matching guard assigns; no
match keeps the row incoming pair (`NoProblem`, zero string). -/
def classifyPair (a : ReplicationAnalysis) : AnalysisCode × String :=
  match analysisRules.find? (fun r => r.guard a) with
  | some r => (r.code, r.desc)
  | none => (a.Analysis, a.Description)

/-- The ordered guard chain applied to the row: the first matching guard
sets `Analysis` and `Description`; no match leaves the row untouched. -/
def classify (a : ReplicationAnalysis) : ReplicationAnalysis :=
  { a with Analysis := (classifyPair a).1, Description := (classifyPair a).2 }

/-- One row of the `database_instance_last_analysis` fence table. -/
structure LastAnalysisRecord where
  analysis : AnalysisCode
  analysis_timestamp : Nat
deriving DecidableEq, Repr

/-- One row of the append-only `database_instance_analysis_changelog`
table. -/
structure ChangelogEntry where
  key : InstanceKey
  analysis_timestamp : Nat
  analysis : AnalysisCode
deriving DecidableEq, Repr

/-- The persistent state the changelog recorder touches: the per-key fence
rows (association list on the unique key `(hostname, port)`) and the
changelog in insertion (`changelog_id`) order, oldest first. -/
structure AuditState where
  lastAnalysis : List (InstanceKey × LastAnalysisRecord)
  changelog : List ChangelogEntry
deriving DecidableEq, Repr

/-- Row of `database_instance_last_analysis` for a key, if any. -/
def lookupLastAnalysis : List (InstanceKey × LastAnalysisRecord) → InstanceKey →
    Option LastAnalysisRecord
  | [], _ => none
  | p :: rest, key => if p.1 = key then some p.2 else lookupLastAnalysis rest key

/-- Replacement of the fence row for a key (the unique key guarantees at most
one row per key; replacement of every match is the list-level rendering). -/
def replaceLastAnalysis : List (InstanceKey × LastAnalysisRecord) → InstanceKey →
    LastAnalysisRecord → List (InstanceKey × LastAnalysisRecord)
  | [], _, _ => []
  | p :: rest, key, nr =>
    if p.1 = key then (key, nr) :: replaceLastAnalysis rest key nr
    else p :: replaceLastAnalysis rest key nr

/-- The `insert ignore ... on duplicate key update` statement of lines
304-314, returning the new fence table and the MySQL rows-affected count
(1 for a fresh insert, 2 for an update that changed the row, 0 when the
update left the row as it was). MySQL applies the update assignments in
order and later assignments see the already-assigned values, so when the
`IF` of the `analysis_timestamp` assignment runs, `analysis` already equals
`VALUES(analysis)`: the condition is always true and the stored timestamp
is kept in every duplicate-key case, also when the code changes. -/
def upsertLastAnalysis (table : List (InstanceKey × LastAnalysisRecord))
    (key : InstanceKey) (code : AnalysisCode) (now : Nat) :
    List (InstanceKey × LastAnalysisRecord) × Nat :=
  match lookupLastAnalysis table key with
  | none => ((key, { analysis := code, analysis_timestamp := now }) :: table, 1)
  | some r =>
    if r.analysis = code then (table, 0)
    else
      (replaceLastAnalysis table key
        { analysis := code, analysis_timestamp := r.analysis_timestamp }, 2)

/-- Go `AuditInstanceAnalysisInChangelog` (lines 303-338). `failExec`,
`failRows` and `failInsert` inject storage failures at the three Go error
sites: the fence upsert exec, the `RowsAffected()` call, and the changelog
insert. The changelog row is appended only when the upsert reports a changed
row (`rows > 0`). -/
def AuditInstanceAnalysisInChangelog (failExec failRows failInsert : Option DBError)
    (instanceKey : InstanceKey) (analysisCode : AnalysisCode) (now : Nat)
    (st : AuditState) : AuditState × Except DBError Unit :=
  match failExec with
  | some e => (st, Except.error e)
  | none =>
    let up := upsertLastAnalysis st.lastAnalysis instanceKey analysisCode now
    let st1 : AuditState := { st with lastAnalysis := up.1 }
    match failRows with
    | some e => (st1, Except.error e)
    | none =>
      let lastAnalysisChanged := decide (up.2 > 0)
      if lastAnalysisChanged then
        match failInsert with
        | some e => (st1, Except.error e)
        | none =>
          ({ st1 with
              changelog := st1.changelog
                ++ [{ key := instanceKey, analysis_timestamp := now,
                      analysis := analysisCode }] },
            Except.ok ())
      else (st1, Except.ok ())

/-- Failure-free run of the changelog recorder, as seen by the state. -/
def auditStep (instanceKey : InstanceKey) (analysisCode : AnalysisCode) (now : Nat)
    (st : AuditState) : AuditState :=
  (AuditInstanceAnalysisInChangelog none none none instanceKey analysisCode now st).1

/-- Result of Go `regexp.MatchString(pattern, s)`: either a boolean match, or
a compile/match error, in which case the matched flag handed back alongside
the error is `false`. -/
abbrev MatchStringResult := Except String Bool

/-- The matched flag the call site keeps after `matched, _ :=
regexp.MatchString(...)` (line 276): the error return is discarded, and an
errored call carries `matched = false`. -/
def matchStringMatched (r : MatchStringResult) : Bool :=
  match r with
  | Except.error _ => false
  | Except.ok b => b

/-- The configuration values `GetReplicationAnalysis` reads, plus the Go
regexp engine as an oracle `rmatch pattern s` standing for
`regexp.MatchString(pattern, s)`. -/
structure Configuration where
  InstancePollSeconds : Nat
  RecoveryIgnoreHostnameFilters : List String
  rmatch : String → String → MatchStringResult

/-- The filter loop of lines 275-279: `skipThisHost` is set when any
configured pattern matches the analyzed hostname. -/
def matchesAnyFilter (cfg : Configuration) (hostname : String) : Bool :=
  cfg.RecoveryIgnoreHostnameFilters.any
    (fun filter => matchStringMatched (cfg.rmatch filter hostname))

/-- Suppression decision of lines 274-282 for a problem row: hostname
filters, then active downtime unless downtimed rows were requested. -/
def skipThisHost (cfg : Configuration) (includeDowntimed : Bool)
    (a : ReplicationAnalysis) : Bool :=
  matchesAnyFilter cfg a.AnalyzedInstanceKey.Hostname
    || (a.IsDowntimed && !includeDowntimed)

/-- Result-set inclusion decision of lines 273-286: a row is added to the
actionable result exactly when it is classified as a problem and not
suppressed. -/
def reportable (cfg : Configuration) (includeDowntimed : Bool)
    (a : ReplicationAnalysis) : Bool :=
  (a.Analysis != NoProblem) && !skipThisHost cfg includeDowntimed a

/-- One group delivered by the analysis query, together with the injected
outcomes of the audit statements the callback will run for it. -/
structure InputRow where
  master : MasterRow
  slaves : List SlaveRow
  downtimed : Bool
  auditFailExec : Option DBError
  auditFailRows : Option DBError
  auditFailInsert : Option DBError
deriving DecidableEq, Repr

/-- Shape-then-classify for one delivered group (lines 143-267). -/
def rowAnalysis (cfg : Configuration) (row : InputRow) : ReplicationAnalysis :=
  classify (aggregate cfg.InstancePollSeconds row.master row.slaves row.downtimed)

/-- The tail of the query callback (lines 273-291): result-set inclusion for
unsuppressed problem rows, then the audit call for rows with at least one
replica, whose error the Go code discards. The third accumulator component
logs each audit invocation. -/
def processRow (cfg : Configuration) (includeDowntimed : Bool) (now : Nat)
    (acc : List ReplicationAnalysis × AuditState × List (InstanceKey × AnalysisCode))
    (row : InputRow) :
    List ReplicationAnalysis × AuditState × List (InstanceKey × AnalysisCode) :=
  let a := rowAnalysis cfg row
  let result := if reportable cfg includeDowntimed a then acc.1 ++ [a] else acc.1
  if 0 < a.CountSlaves then
    ((result,
      (AuditInstanceAnalysisInChangelog row.auditFailExec row.auditFailRows
        row.auditFailInsert a.AnalyzedInstanceKey a.Analysis now acc.2.1).1,
      acc.2.2 ++ [(a.AnalyzedInstanceKey, a.Analysis)]))
  else (result, acc.2.1, acc.2.2)

/-- What one classification pass hands back: the actionable result list and
query error (the Go return values), plus the audit-store state and the log of
audit invocations made along the way. -/
structure AnalysisPassOutput where
  result : List ReplicationAnalysis
  state : AuditState
  auditCalls : List (InstanceKey × AnalysisCode)
  err : Option DBError

/-- Go `GetReplicationAnalysis` (lines 30-298): folds the callback over the
delivered groups; `queryErr` is the error, if any, with which the query
terminated after delivering `inputs`, and is returned alongside the
best-effort result list (lines 294-297). -/
def GetReplicationAnalysis (cfg : Configuration) (includeDowntimed : Bool)
    (inputs : List InputRow) (queryErr : Option DBError) (now : Nat)
    (st0 : AuditState) : AnalysisPassOutput :=
  let t := inputs.foldl (processRow cfg includeDowntimed now) ([], st0, [])
  { result := t.1, state := t.2.1, auditCalls := t.2.2, err := queryErr }

/-- Row-wise description of the actionable result list of one pass: the
classified rows that survive the suppression filter, in delivery order. -/
def includedRows (cfg : Configuration) (includeDowntimed : Bool)
    (inputs : List InputRow) : List ReplicationAnalysis :=
  (inputs.map (rowAnalysis cfg)).filter (reportable cfg includeDowntimed)

/-- Row-wise description of the audit-store evolution of one pass: the audit
call runs for every row with at least one replica, suppressed or not. -/
def auditPass (cfg : Configuration) (now : Nat) (inputs : List InputRow)
    (st : AuditState) : AuditState :=
  inputs.foldl (fun acc row =>
    let a := rowAnalysis cfg row
    if 0 < a.CountSlaves then
      (AuditInstanceAnalysisInChangelog row.auditFailExec row.auditFailRows
        row.auditFailInsert a.AnalyzedInstanceKey a.Analysis now acc).1
    else acc) st

/-- Row-wise description of the audit invocations of one pass. -/
def auditedCalls (cfg : Configuration) (inputs : List InputRow) :
    List (InstanceKey × AnalysisCode) :=
  (inputs.map (rowAnalysis cfg)).filterMap
    (fun a =>
      if 0 < a.CountSlaves then some (a.AnalyzedInstanceKey, a.Analysis) else none)

/-- Go `ExpireInstanceAnalysisChangelog` (lines 341-351): deletes changelog
rows older than the retention window, surfacing a storage failure with the
state untouched. -/
def ExpireInstanceAnalysisChangelog (failExec : Option DBError)
    (retentionHours : Nat) (now : Nat) (st : AuditState) :
    AuditState × Except DBError Unit :=
  match failExec with
  | some e => (st, Except.error e)
  | none =>
    ({ st with
        changelog := st.changelog.filter
          (fun entry => !decide (entry.analysis_timestamp < now - retentionHours * 3600)) },
      Except.ok ())

/-- One row of Go `ReadReplicationAnalysisChangelog`: the per-key timeline of
`(timestamp, code)` pairs in `changelog_id` order (the textual
`group_concat` rendering is kept as the structured pair list, since the
`AnalysisCode` constant strings live outside this file). -/
structure ReplicationAnalysisChangelog where
  AnalyzedInstanceKey : InstanceKey
  Changelog : List (Nat × AnalysisCode)
deriving DecidableEq, Repr

/-- Go `ReadReplicationAnalysisChangelog` (lines 354-381): one timeline per
distinct key of the delivered changelog rows, in `changelog_id` order;
`queryErr` is returned alongside the best-effort list. -/
def ReadReplicationAnalysisChangelog (delivered : List ChangelogEntry)
    (queryErr : Option DBError) :
    List ReplicationAnalysisChangelog × Option DBError :=
  let keys := (delivered.map (fun entry => entry.key)).dedup
  (keys.map (fun k =>
      { AnalyzedInstanceKey := k
        Changelog := (delivered.filter (fun entry => decide (entry.key = k))).map
          (fun entry => (entry.analysis_timestamp, entry.analysis)) }),
    queryErr)

/-- Description string the guard chain pairs with each analysis code
(`NoProblem` keeps the zero string of the freshly built row). -/
def descriptionOf : AnalysisCode → String
  | NoProblem => ""
  | DeadMasterWithoutSlaves =>
    "Master cannot be reached by orchestrator and has no slave"
  | DeadMaster =>
    "Master cannot be reached by orchestrator and none of its slaves is replicating"
  | DeadMasterAndSlaves =>
    "Master cannot be reached by orchestrator and none of its slaves is replicating"
  | DeadMasterAndSomeSlaves =>
    "Master cannot be reached by orchestrator; some of its slaves are unreachable and none of its reachable slaves is replicating"
  | UnreachableMaster =>
    "Master cannot be reached by orchestrator but it has replicating slaves; possibly a network/host issue"
  | MasterSingleSlaveNotReplicating =>
    "Master is reachable but its single slave is not replicating"
  | MasterSingleSlaveDead =>
    "Master is reachable but its single slave is dead"
  | AllMasterSlavesNotReplicating =>
    "Master is reachable but none of its slaves is replicating"
  | AllMasterSlavesNotReplicatingOrDead =>
    "Master is reachable but none of its slaves is replicating"
  | DeadCoMaster =>
    "Co-master cannot be reached by orchestrator and none of its slaves is replicating"
  | DeadCoMasterAndSomeSlaves =>
    "Co-master cannot be reached by orchestrator; some of its slaves are unreachable and none of its reachable slaves is replicating"
  | UnreachableCoMaster =>
    "Co-master cannot be reached by orchestrator but it has replicating slaves; possibly a network/host issue"
  | AllCoMasterSlavesNotReplicating =>
    "Co-master is reachable but none of its slaves is replicating"
  | DeadIntermediateMasterWithSingleSlaveFailingToConnect =>
    "Intermediate master cannot be reached by orchestrator and its (single) slave is failing to connect"
  | DeadIntermediateMasterWithSingleSlave =>
    "Intermediate master cannot be reached by orchestrator and its (single) slave is not replicating"
  | DeadIntermediateMaster =>
    "Intermediate master cannot be reached by orchestrator and none of its slaves is replicating"
  | DeadIntermediateMasterAndSomeSlaves =>
    "Intermediate master cannot be reached by orchestrator; some of its slaves are unreachable and none of its reachable slaves is replicating"
  | UnreachableIntermediateMaster =>
    "Intermediate master cannot be reached by orchestrator but it has replicating slaves; possibly a network/host issue"
  | AllIntermediateMasterSlavesFailingToConnectOrDead =>
    "Intermediate master is reachable but all of its slaves are failing to connect"
  | AllIntermediateMasterSlavesNotReplicating =>
    "Intermediate master is reachable but none of its slaves is replicating"
  | BinlogServerFailingToConnectToMaster =>
    "Binlog server is unable to connect to its master"
  | FirstTierSlaveFailingToConnectToMaster =>
    "1st tier slave (directly replicating from topology master) is unable to connect to the master"

/-- Empty persistent store. -/
def emptyAuditState : AuditState :=
  { lastAnalysis := [], changelog := [] }

/-- Concrete stale master-role observation row for witnesses: last check is
newer than the last successful observation, no upstream. -/
def sampleMaster (host : String) : MasterRow :=
  { hostname := host
    port := 3306
    master_host := ""
    master_port := 0
    cluster_name := "c1"
    cluster_alias := "c1"
    last_checked := 10
    last_seen := 5
    last_attempted_check := 10
    is_co_master := false
    slave_sql_running := false
    slave_io_running := false
    last_io_error_matches_connect := false
    replication_depth := 0
    binlog_server := false
    pseudo_gtid := false
    supports_oracle_gtid := false
    mariadb_gtid := false }

/-- Concrete valid but non-replicating replica row for witnesses. -/
def sampleSlave : SlaveRow :=
  { hostname := "s1"
    port := 3306
    last_checked := 4
    last_seen := 5
    slave_io_running := false
    slave_sql_running := false
    last_io_error_matches_connect := false
    oracle_gtid := false
    binlog_server := false }

/-- Regexp oracle for witnesses matching a hostname exactly against the
pattern text. -/
def hostEqMatch : String → String → MatchStringResult :=
  fun pattern s => Except.ok (pattern == s)

/-- Witness configuration suppressing the hostname `badhost`. -/
def sampleCfg : Configuration :=
  { InstancePollSeconds := 10
    RecoveryIgnoreHostnameFilters := ["badhost"]
    rmatch := hostEqMatch }

/-- Witness configuration with no hostname filters. -/
def cfgNoFilters : Configuration :=
  { InstancePollSeconds := 10
    RecoveryIgnoreHostnameFilters := []
    rmatch := hostEqMatch }

/-- Witness configuration whose regexp oracle fails to compile every
pattern. -/
def cfgBrokenRegex : Configuration :=
  { InstancePollSeconds := 10
    RecoveryIgnoreHostnameFilters := []
    rmatch := fun _ _ => Except.error "missing closing paren" }

/-- Delivered group for witnesses: stale master named `host` with one valid
non-replicating replica (classified `DeadMaster`), failure-free audit. -/
def sampleRow (host : String) : InputRow :=
  { master := sampleMaster host
    slaves := [sampleSlave]
    downtimed := false
    auditFailExec := none
    auditFailRows := none
    auditFailInsert := none }

/-- Variant of `sampleRow` under active downtime. -/
def downtimedRow : InputRow :=
  { sampleRow "dthost" with downtimed := true }

/-- Variant of `sampleRow` whose changelog insert fails. -/
def failingAuditRow : InputRow :=
  { sampleRow "failhost" with auditFailInsert := some "disk full" }

/-- Condition under which one recorder call appends a changelog row: no
fence row exists yet for the key, or the stored code differs from the
incoming one. -/
def appendCondition (st : AuditState) (key : InstanceKey) (code : AnalysisCode) : Bool :=
  match lookupLastAnalysis st.lastAnalysis key with
  | none => true
  | some r => decide (r.analysis ≠ code)

/-- Fixed sample master row exercising the guard chain: stale master with 3
replicas, all valid, none replicating. -/
def deadMasterSample : ReplicationAnalysis :=
  { AnalyzedInstanceKey := { Hostname := "db-master-1", Port := 3306 }
    AnalyzedInstanceMasterKey := { Hostname := "", Port := 0 }
    ClusterName := "c1"
    ClusterAlias := "c1"
    IsMaster := true
    IsCoMaster := false
    LastCheckValid := false
    CountSlaves := 3
    CountValidSlaves := 3
    CountValidReplicatingSlaves := 0
    CountSlavesFailingToConnectToMaster := 0
    ReplicationDepth := 0
    IsFailingToConnectToMaster := false
    IsDowntimed := false
    IsBinlogServer := false
    OracleGTIDImmediateTopology := false
    PseudoGTIDImmediateTopology := false
    MariaDBGTIDImmediateTopology := false
    BinlogServerImmediateTopology := false
    SlaveHosts := []
    Analysis := NoProblem
    Description := "" }

/-! ### Helper lemmas -/

/-- The guard chain only sets `Analysis` and `Description`; every other field
of the row passes through unchanged. -/
theorem classify_counts (a : ReplicationAnalysis) :
    (classify a).CountSlaves = a.CountSlaves
      ∧ (classify a).CountValidSlaves = a.CountValidSlaves
      ∧ (classify a).CountValidReplicatingSlaves = a.CountValidReplicatingSlaves
      ∧ (classify a).CountSlavesFailingToConnectToMaster
          = a.CountSlavesFailingToConnectToMaster :=
  ⟨rfl, rfl, rfl, rfl⟩

/-- Replacing the fence row for a key is what every later lookup of that key
sees; other keys keep their rows. -/
theorem lookupLastAnalysis_replace (l : List (InstanceKey × LastAnalysisRecord))
    (key : InstanceKey) (nr : LastAnalysisRecord) :
    lookupLastAnalysis (replaceLastAnalysis l key nr) key
      = (lookupLastAnalysis l key).map (fun _ => nr) := by
  induction l with
  | nil => rfl
  | cons p rest ih =>
    by_cases hp : p.1 = key
    · simp [replaceLastAnalysis, lookupLastAnalysis, hp]
    · simp [replaceLastAnalysis, lookupLastAnalysis, hp, ih]

/-- The fence row for the audited key after one failure-free recorder call:
a fresh record with the incoming code and timestamp on first insert; an
existing row keeps its stored timestamp in every case (the in-order `IF`),
with only the code replaced when it differs. -/
theorem auditStep_lookup (key : InstanceKey) (code : AnalysisCode) (now : Nat)
    (st : AuditState) :
    lookupLastAnalysis (auditStep key code now st).lastAnalysis key
      = some (match lookupLastAnalysis st.lastAnalysis key with
              | none => { analysis := code, analysis_timestamp := now }
              | some r =>
                if r.analysis = code then r
                else { analysis := code,
                       analysis_timestamp := r.analysis_timestamp }) := by
  unfold auditStep AuditInstanceAnalysisInChangelog upsertLastAnalysis
  cases h : lookupLastAnalysis st.lastAnalysis key with
  | none => simp [h, lookupLastAnalysis]
  | some r =>
    by_cases hr : r.analysis = code
    · simp [h, hr]
    · simp [h, hr, lookupLastAnalysis_replace]

/-- Changelog effect of one failure-free recorder call: an entry is appended
exactly under `appendCondition`, i.e. when no fence row exists for the key or
the stored code differs. -/
theorem auditStep_changelog (key : InstanceKey) (code : AnalysisCode) (now : Nat)
    (st : AuditState) :
    (auditStep key code now st).changelog
      = if appendCondition st key code then
          st.changelog
            ++ [{ key := key, analysis_timestamp := now, analysis := code }]
        else st.changelog := by
  unfold auditStep AuditInstanceAnalysisInChangelog upsertLastAnalysis appendCondition
  cases h : lookupLastAnalysis st.lastAnalysis key with
  | none => simp [h]
  | some r =>
    by_cases hr : r.analysis = code
    · simp [h, hr]
    · simp [h, hr]

/-- Row-wise characterization of the callback fold: the result list, audit
state and audit-call log of a pass are the pointwise shapes `includedRows`,
`auditPass` and `auditedCalls`. -/
theorem foldl_processRow (cfg : Configuration) (includeDowntimed : Bool)
    (now : Nat) (inputs : List InputRow) :
    ∀ res st calls,
      inputs.foldl (processRow cfg includeDowntimed now) (res, st, calls)
        = (res ++ includedRows cfg includeDowntimed inputs,
           auditPass cfg now inputs st,
           calls ++ auditedCalls cfg inputs) := by
  induction inputs with
  | nil => intro res st calls; simp [includedRows, auditPass, auditedCalls]
  | cons row rest ih =>
    intro res st calls
    rw [List.foldl_cons]
    show List.foldl (processRow cfg includeDowntimed now)
      (processRow cfg includeDowntimed now (res, st, calls) row) rest = _
    by_cases hrep : reportable cfg includeDowntimed (rowAnalysis cfg row)
    all_goals by_cases hcs : 0 < (rowAnalysis cfg row).CountSlaves
    all_goals simp [processRow, hrep, hcs, ih, includedRows, auditPass,
      auditedCalls, List.filter_cons, List.filterMap_cons]

/-- The four components of `GetReplicationAnalysis`: result set, audit
state, audit-call log and returned error, row-wise. -/
theorem getReplicationAnalysis_components (cfg : Configuration)
    (includeDowntimed : Bool) (inputs : List InputRow) (queryErr : Option DBError)
    (now : Nat) (st0 : AuditState) :
    (GetReplicationAnalysis cfg includeDowntimed inputs queryErr now st0).result
        = includedRows cfg includeDowntimed inputs
      ∧ (GetReplicationAnalysis cfg includeDowntimed inputs queryErr now st0).state
          = auditPass cfg now inputs st0
      ∧ (GetReplicationAnalysis cfg includeDowntimed inputs queryErr now st0).auditCalls
          = auditedCalls cfg inputs
      ∧ (GetReplicationAnalysis cfg includeDowntimed inputs queryErr now st0).err
          = queryErr := by
  unfold GetReplicationAnalysis
  rw [foldl_processRow]
  exact ⟨by simp, rfl, by simp, rfl⟩

/-- Every rule of the guard chain pairs its code with the fixed description
string of that code. -/
theorem analysisRules_desc : ∀ r ∈ analysisRules, r.desc = descriptionOf r.code := by
  intro r hr
  fin_cases hr <;> rfl

/-- On a freshly built row (default code, zero description) the guard chain
always pairs the code it picks with the fixed description of that code. -/
theorem classifyPair_snd (a : ReplicationAnalysis) (h1 : a.Analysis = NoProblem)
    (h2 : a.Description = "") :
    (classifyPair a).2 = descriptionOf (classifyPair a).1 := by
  unfold classifyPair
  cases hf : analysisRules.find? (fun r => r.guard a) with
  | none =>
    show a.Description = descriptionOf a.Analysis
    rw [h1, h2]
    rfl
  | some r =>
    exact analysisRules_desc r (List.mem_of_find?_eq_some hf)

/-! ### Claims -/

/-- C1: the stale master row with `CountSlaves = 3`, `CountValidSlaves = 3`,
`CountValidReplicatingSlaves = 0` classifies as `DeadMaster`; lowering
`CountValidSlaves` to 2 yields `DeadMasterAndSomeSlaves`; and raising
`CountValidReplicatingSlaves` to 1 (with all 3 replicas valid) resolves to
`UnreachableMaster` by guard order, not to `NoProblem`. -/
theorem classify_example_scenarios :
    (classify deadMasterSample).Analysis = DeadMaster
      ∧ (classify { deadMasterSample with CountValidSlaves := 2 }).Analysis
          = DeadMasterAndSomeSlaves
      ∧ (classify { deadMasterSample with CountValidReplicatingSlaves := 1 }).Analysis
          = UnreachableMaster := by
  refine ⟨?_, ?_, ?_⟩ <;> rfl

/-- C7: every row the classification pass produces satisfies the monotone
replica-count bounds `0 ≤ CountValidReplicatingSlaves ≤ CountValidSlaves ≤
CountSlaves` and `CountSlavesFailingToConnectToMaster ≤ CountSlaves`. -/
theorem replica_count_bounds (cfg : Configuration) (row : InputRow) :
    0 ≤ (rowAnalysis cfg row).CountValidReplicatingSlaves
      ∧ (rowAnalysis cfg row).CountValidReplicatingSlaves
          ≤ (rowAnalysis cfg row).CountValidSlaves
      ∧ (rowAnalysis cfg row).CountValidSlaves ≤ (rowAnalysis cfg row).CountSlaves
      ∧ (rowAnalysis cfg row).CountSlavesFailingToConnectToMaster
          ≤ (rowAnalysis cfg row).CountSlaves := by
  have hc := classify_counts
    (aggregate cfg.InstancePollSeconds row.master row.slaves row.downtimed)
  unfold rowAnalysis
  rw [hc.1, hc.2.1, hc.2.2.1, hc.2.2.2]
  refine ⟨Nat.zero_le _, ?_, ?_, ?_⟩
  · exact List.countP_mono_left (fun s _ h => by
      simp only [Bool.and_eq_true] at h
      exact h.1.1)
  · exact List.countP_le_length _
  · exact List.countP_le_length _

/-- C2: the changelog recorder appends an entry exactly when the supplied
code differs from the recorded `LastAnalysis` code or no record exists;
consecutive calls with the same code append nothing further; and the call
sequence `A, A, B, B, A` on one key from an empty store logs exactly the
three transition codes `A, B, A`. -/
theorem audit_changelog_transitions (key : InstanceKey) (code : AnalysisCode)
    (now now' : Nat) (st : AuditState) (A B : AnalysisCode) (hAB : A ≠ B) :
    ((auditStep key code now st).changelog
      = if appendCondition st key code then
          st.changelog
            ++ [{ key := key, analysis_timestamp := now, analysis := code }]
        else st.changelog)
      ∧ ((auditStep key code now' (auditStep key code now st)).changelog
          = (auditStep key code now st).changelog)
      ∧ ((([A, A, B, B, A].foldl (fun acc c => auditStep key c 0 acc)
            { lastAnalysis := [], changelog := [] }).changelog).map
            (fun entry => entry.analysis) = [A, B, A]) := by
  refine ⟨auditStep_changelog key code now st, ?_, ?_⟩
  · rw [auditStep_changelog]
    have hcond : appendCondition (auditStep key code now st) key code = false := by
      unfold appendCondition
      rw [auditStep_lookup]
      cases h : lookupLastAnalysis st.lastAnalysis key with
      | none => simp
      | some r =>
        by_cases hr : r.analysis = code
        · simp [hr]
        · simp [hr]
    rw [hcond]
    simp
  · simp [auditStep, AuditInstanceAnalysisInChangelog, upsertLastAnalysis,
      lookupLastAnalysis, replaceLastAnalysis, hAB, Ne.symm hAB]

/-- C2 witness: concrete run of the three conjuncts at `A = DeadMaster`,
`B = UnreachableMaster`. -/
theorem audit_changelog_transitions_witness :
    (DeadMaster : AnalysisCode) ≠ UnreachableMaster
      ∧ ((([DeadMaster, DeadMaster, UnreachableMaster, UnreachableMaster,
            DeadMaster].foldl
            (fun acc c => auditStep { Hostname := "db-master-1", Port := 3306 } c 0 acc)
            { lastAnalysis := [], changelog := [] }).changelog).map
            (fun entry => entry.analysis)
          = [DeadMaster, UnreachableMaster, DeadMaster]) := by
  refine ⟨by decide, ?_⟩
  exact (audit_changelog_transitions { Hostname := "db-master-1", Port := 3306 }
    NoProblem 0 0 { lastAnalysis := [], changelog := [] } DeadMaster
    UnreachableMaster (by decide)).2.2

/-- C4 at the failing input: the insert case and the same-code case behave
as the claim states, but with a stored fence row `(DeadMaster, 3)` a call
carrying `UnreachableMaster` at time 7 overwrites only the code and keeps
the stored timestamp 3 — the in-order `IF` of lines 310-311 is always true,
so the timestamp the claim (and the evident intent of the conditional)
expects to become 7 never is. -/
theorem last_analysis_upsert_failing_input :
    (lookupLastAnalysis
        (auditStep { Hostname := "h1", Port := 3306 } DeadMaster 7
          { lastAnalysis := [], changelog := [] }).lastAnalysis
        { Hostname := "h1", Port := 3306 }
      = some { analysis := DeadMaster, analysis_timestamp := 7 })
      ∧ (lookupLastAnalysis
          (auditStep { Hostname := "h1", Port := 3306 } DeadMaster 7
            { lastAnalysis := [({ Hostname := "h1", Port := 3306 },
                { analysis := DeadMaster, analysis_timestamp := 3 })]
              changelog := [] }).lastAnalysis
          { Hostname := "h1", Port := 3306 }
        = some { analysis := DeadMaster, analysis_timestamp := 3 })
      ∧ (lookupLastAnalysis
          (auditStep { Hostname := "h1", Port := 3306 } UnreachableMaster 7
            { lastAnalysis := [({ Hostname := "h1", Port := 3306 },
                { analysis := DeadMaster, analysis_timestamp := 3 })]
              changelog := [] }).lastAnalysis
          { Hostname := "h1", Port := 3306 }
        = some { analysis := UnreachableMaster, analysis_timestamp := 3 })
      ∧ (lookupLastAnalysis
          (auditStep { Hostname := "h1", Port := 3306 } UnreachableMaster 7
            { lastAnalysis := [({ Hostname := "h1", Port := 3306 },
                { analysis := DeadMaster, analysis_timestamp := 3 })]
              changelog := [] }).lastAnalysis
          { Hostname := "h1", Port := 3306 }
        ≠ some { analysis := UnreachableMaster, analysis_timestamp := 7 }) := by
  refine ⟨rfl, rfl, rfl, by decide⟩

/-- C3 counterexample: `PseudoGTIDImmediateTopology` is simply the
`pseudo_gtid` flag of the master itself, so it is true on a row with zero valid replicas; and
`OracleGTIDImmediateTopology` counts capable replicas over all joined rows,
so it is true while no valid replica is oracle-GTID capable. -/
theorem topology_flags_counterexample :
    ((aggregate 10 { sampleMaster "pgh" with pseudo_gtid := true } []
        false).PseudoGTIDImmediateTopology = true
      ∧ (aggregate 10 { sampleMaster "pgh" with pseudo_gtid := true } []
          false).CountValidSlaves = 0)
      ∧ ((aggregate 10 { sampleMaster "ogh" with supports_oracle_gtid := true }
            [{ sampleSlave with last_checked := 10, last_seen := 5, oracle_gtid := true },
             sampleSlave] false).OracleGTIDImmediateTopology = true
        ∧ ([{ sampleSlave with last_checked := 10, last_seen := 5, oracle_gtid := true },
            sampleSlave].countP (fun s => slaveIsValid s && s.oracle_gtid) = 0)
        ∧ countValidSlaves
            [{ sampleSlave with last_checked := 10, last_seen := 5, oracle_gtid := true },
             sampleSlave] = 1) := by
  refine ⟨⟨rfl, rfl⟩, rfl, rfl, rfl⟩

/-- C3 amended: `OracleGTIDImmediateTopology` holds exactly when the master
supports Oracle GTID and the count of oracle-GTID replicas over all joined
replica rows (valid or not) equals `CountValidSlaves > 0`;
`BinlogServerImmediateTopology` likewise with the all-rows binlog-server
count; `PseudoGTIDImmediateTopology` and `MariaDBGTIDImmediateTopology` are
the own flags of the master, independent of any replica count. -/
theorem topology_flags_amended (pollSeconds : Nat) (m : MasterRow)
    (ss : List SlaveRow) (downtimed : Bool) :
    ((aggregate pollSeconds m ss downtimed).OracleGTIDImmediateTopology = true
        ↔ m.supports_oracle_gtid = true
            ∧ countOracleGTIDSlaves ss = countValidSlaves ss
            ∧ 0 < countValidSlaves ss)
      ∧ ((aggregate pollSeconds m ss downtimed).BinlogServerImmediateTopology = true
          ↔ countBinlogServerSlaves ss = countValidSlaves ss
              ∧ 0 < countValidSlaves ss)
      ∧ (aggregate pollSeconds m ss downtimed).PseudoGTIDImmediateTopology
          = m.pseudo_gtid
      ∧ (aggregate pollSeconds m ss downtimed).MariaDBGTIDImmediateTopology
          = m.mariadb_gtid := by
  refine ⟨?_, ?_, rfl, rfl⟩ <;>
    simp [aggregate, Bool.and_eq_true, beq_iff_eq, decide_eq_true_eq, and_assoc]

/-- C9 counterexample: `DeadMaster` and `DeadMasterAndSlaves` are distinct
codes whose classified rows carry the identical description string, so the
code-to-description mapping is not one-to-one. -/
theorem description_collision_counterexample :
    (classify deadMasterSample).Analysis = DeadMaster
      ∧ (classify { deadMasterSample with CountValidSlaves := 0 }).Analysis
          = DeadMasterAndSlaves
      ∧ (classify deadMasterSample).Description
          = (classify { deadMasterSample with CountValidSlaves := 0 }).Description := by
  refine ⟨rfl, rfl, rfl⟩

/-- C9 amended: every row the pass classifies carries the fixed description
belonging to its code (the mapping code to description is a function), but
that mapping is not injective: `DeadMaster` shares its description with
`DeadMasterAndSlaves`, and `AllMasterSlavesNotReplicating` with
`AllMasterSlavesNotReplicatingOrDead`. -/
theorem description_function_amended (cfg : Configuration) (row : InputRow) :
    (rowAnalysis cfg row).Description = descriptionOf (rowAnalysis cfg row).Analysis
      ∧ descriptionOf DeadMaster = descriptionOf DeadMasterAndSlaves
      ∧ descriptionOf AllMasterSlavesNotReplicating
          = descriptionOf AllMasterSlavesNotReplicatingOrDead := by
  refine ⟨?_, rfl, rfl⟩
  exact classifyPair_snd
    (aggregate cfg.InstancePollSeconds row.master row.slaves row.downtimed) rfl rfl

/-- C5: every row in the returned result list is a problem row whose
hostname matches no configured exclusion pattern (so suppressed problem rows
and `NoProblem` rows never appear, for any filters and either flag value),
while every delivered row with at least one replica is passed to the
changelog audit regardless of suppression. -/
theorem suppression_and_audit (cfg : Configuration) (includeDowntimed : Bool)
    (inputs : List InputRow) (queryErr : Option DBError) (now : Nat)
    (st0 : AuditState) (a : ReplicationAnalysis) (row : InputRow)
    (ha : a ∈ (GetReplicationAnalysis cfg includeDowntimed inputs queryErr now
      st0).result)
    (hrow : row ∈ inputs)
    (hcs : 0 < (rowAnalysis cfg row).CountSlaves) :
    (a.Analysis ≠ NoProblem
      ∧ matchesAnyFilter cfg a.AnalyzedInstanceKey.Hostname = false)
      ∧ ((rowAnalysis cfg row).AnalyzedInstanceKey, (rowAnalysis cfg row).Analysis)
          ∈ (GetReplicationAnalysis cfg includeDowntimed inputs queryErr now
              st0).auditCalls := by
  obtain ⟨hres, hst, hcalls, herr⟩ :=
    getReplicationAnalysis_components cfg includeDowntimed inputs queryErr now st0
  constructor
  · rw [hres] at ha
    have hrep := (List.mem_filter.mp ha).2
    simp only [reportable, skipThisHost, Bool.and_eq_true, bne_iff_ne,
      Bool.not_eq_true', Bool.or_eq_false_iff] at hrep
    exact ⟨hrep.1, hrep.2.1⟩
  · rw [hcalls]
    refine List.mem_filterMap.mpr ⟨rowAnalysis cfg row, List.mem_map_of_mem _ hrow, ?_⟩
    simp [hcs]

/-- C5 witness: a pass over a reportable `DeadMaster` row plus a
filter-suppressed row with one replica; the first appears in the result with
no filter match, the second is still audited. -/
theorem suppression_and_audit_witness :
    ((rowAnalysis sampleCfg (sampleRow "goodhost")).Analysis ≠ NoProblem
      ∧ matchesAnyFilter sampleCfg
          (rowAnalysis sampleCfg (sampleRow "goodhost")).AnalyzedInstanceKey.Hostname
        = false)
      ∧ ((rowAnalysis sampleCfg (sampleRow "badhost")).AnalyzedInstanceKey,
          (rowAnalysis sampleCfg (sampleRow "badhost")).Analysis)
          ∈ (GetReplicationAnalysis sampleCfg false
              [sampleRow "goodhost", sampleRow "badhost"] none 0
              emptyAuditState).auditCalls := by
  exact suppression_and_audit sampleCfg false
    [sampleRow "goodhost", sampleRow "badhost"] none 0 emptyAuditState
    (rowAnalysis sampleCfg (sampleRow "goodhost")) (sampleRow "badhost")
    (by decide) (by decide) (by decide)

/-- C6: a row under active downtime that is classified as a problem and
matches no hostname filter appears in the result exactly when
`includeDowntimed = true`, while the audit store and the audit-call log of
the pass (hence every classified code) are identical for both flag
values. -/
theorem downtime_flag_scope (cfg : Configuration) (inputs : List InputRow)
    (queryErr : Option DBError) (now : Nat) (st0 : AuditState) (row : InputRow)
    (hrow : row ∈ inputs)
    (hdt : (rowAnalysis cfg row).IsDowntimed = true)
    (hnp : (rowAnalysis cfg row).Analysis ≠ NoProblem)
    (hfilter : matchesAnyFilter cfg
      (rowAnalysis cfg row).AnalyzedInstanceKey.Hostname = false) :
    rowAnalysis cfg row
        ∈ (GetReplicationAnalysis cfg true inputs queryErr now st0).result
      ∧ rowAnalysis cfg row
          ∉ (GetReplicationAnalysis cfg false inputs queryErr now st0).result
      ∧ (GetReplicationAnalysis cfg false inputs queryErr now st0).state
          = (GetReplicationAnalysis cfg true inputs queryErr now st0).state
      ∧ (GetReplicationAnalysis cfg false inputs queryErr now st0).auditCalls
          = (GetReplicationAnalysis cfg true inputs queryErr now st0).auditCalls := by
  obtain ⟨hresT, hstT, hcallsT, herrT⟩ :=
    getReplicationAnalysis_components cfg true inputs queryErr now st0
  obtain ⟨hresF, hstF, hcallsF, herrF⟩ :=
    getReplicationAnalysis_components cfg false inputs queryErr now st0
  refine ⟨?_, ?_, ?_, ?_⟩
  · rw [hresT]
    refine List.mem_filter.mpr ⟨List.mem_map_of_mem _ hrow, ?_⟩
    simp [reportable, skipThisHost, hfilter, hdt, bne_iff_ne, hnp]
  · rw [hresF]
    intro hmem
    have hrep := (List.mem_filter.mp hmem).2
    simp [reportable, skipThisHost, hdt] at hrep
  · rw [hstF, hstT]
  · rw [hcallsF, hcallsT]

/-- C6 witness: the downtimed `DeadMaster` row is in the result only under
`includeDowntimed = true`, with identical audit store and call log. -/
theorem downtime_flag_scope_witness :
    rowAnalysis cfgNoFilters downtimedRow
        ∈ (GetReplicationAnalysis cfgNoFilters true [downtimedRow] none 0
            emptyAuditState).result
      ∧ rowAnalysis cfgNoFilters downtimedRow
          ∉ (GetReplicationAnalysis cfgNoFilters false [downtimedRow] none 0
              emptyAuditState).result
      ∧ (GetReplicationAnalysis cfgNoFilters false [downtimedRow] none 0
            emptyAuditState).state
          = (GetReplicationAnalysis cfgNoFilters true [downtimedRow] none 0
              emptyAuditState).state
      ∧ (GetReplicationAnalysis cfgNoFilters false [downtimedRow] none 0
            emptyAuditState).auditCalls
          = (GetReplicationAnalysis cfgNoFilters true [downtimedRow] none 0
              emptyAuditState).auditCalls := by
  exact downtime_flag_scope cfgNoFilters [downtimedRow] none 0 emptyAuditState
    downtimedRow (by decide) (by decide) (by decide) (by decide)

/-- C8 counterexample: the changelog insert for the delivered row fails
(`disk full`), the pass performs exactly that failing audit call, yet
`GetReplicationAnalysis` returns no error — the audit failure inside the
classification pass is swallowed. -/
theorem audit_error_swallowed_counterexample :
    (AuditInstanceAnalysisInChangelog none none (some "disk full")
        (rowAnalysis cfgNoFilters failingAuditRow).AnalyzedInstanceKey
        (rowAnalysis cfgNoFilters failingAuditRow).Analysis 0 emptyAuditState).2
      = Except.error "disk full"
      ∧ (GetReplicationAnalysis cfgNoFilters true [failingAuditRow] none 0
          emptyAuditState).err = none
      ∧ (GetReplicationAnalysis cfgNoFilters true [failingAuditRow] none 0
          emptyAuditState).state
        = (AuditInstanceAnalysisInChangelog none none (some "disk full")
            (rowAnalysis cfgNoFilters failingAuditRow).AnalyzedInstanceKey
            (rowAnalysis cfgNoFilters failingAuditRow).Analysis 0
            emptyAuditState).1 := by
  refine ⟨rfl, rfl, rfl⟩

/-- C8 amended: each operation surfaces its own storage failures — the pass
returns the query error alongside the best-effort result list,
`AuditInstanceAnalysisInChangelog` returns the error of whichever of its
three statements fails, and expiry and changelog read pass their errors
through — but errors of audit calls made inside the pass never reach the
error returned by the pass. -/
theorem error_propagation_amended (cfg : Configuration) (includeDowntimed : Bool)
    (inputs : List InputRow) (e : DBError) (now : Nat) (st0 st : AuditState)
    (key : InstanceKey) (code : AnalysisCode)
    (failRows failInsert : Option DBError) (e1 e2 e3 : DBError)
    (retentionHours : Nat) (delivered : List ChangelogEntry)
    (hkey : lookupLastAnalysis st.lastAnalysis key = none) :
    ((GetReplicationAnalysis cfg includeDowntimed inputs (some e) now st0).err
        = some e
      ∧ (GetReplicationAnalysis cfg includeDowntimed inputs (some e) now st0).result
          = includedRows cfg includeDowntimed inputs)
      ∧ (AuditInstanceAnalysisInChangelog (some e1) failRows failInsert key code
          now st).2 = Except.error e1
      ∧ (AuditInstanceAnalysisInChangelog none (some e2) failInsert key code
          now st).2 = Except.error e2
      ∧ (AuditInstanceAnalysisInChangelog none none (some e3) key code
          now st).2 = Except.error e3
      ∧ (ExpireInstanceAnalysisChangelog (some e1) retentionHours now st).2
          = Except.error e1
      ∧ (ReadReplicationAnalysisChangelog delivered (some e1)).2 = some e1 := by
  obtain ⟨hres, hst, hcalls, herr⟩ := getReplicationAnalysis_components cfg
    includeDowntimed inputs (some e) now st0
  refine ⟨⟨herr, hres⟩, rfl, rfl, ?_, rfl, rfl⟩
  unfold AuditInstanceAnalysisInChangelog upsertLastAnalysis
  simp [hkey]

/-- C8 amended witness: the propagation conjuncts evaluated on empty
concrete stores. -/
theorem error_propagation_amended_witness :
    lookupLastAnalysis emptyAuditState.lastAnalysis
        { Hostname := "h1", Port := 3306 } = none
      ∧ (((GetReplicationAnalysis cfgNoFilters true [] (some "conn reset") 0
            emptyAuditState).err = some "conn reset"
          ∧ (GetReplicationAnalysis cfgNoFilters true [] (some "conn reset") 0
              emptyAuditState).result = includedRows cfgNoFilters true [])
        ∧ (AuditInstanceAnalysisInChangelog (some "e1") none none
            { Hostname := "h1", Port := 3306 } DeadMaster 0 emptyAuditState).2
            = Except.error "e1"
        ∧ (AuditInstanceAnalysisInChangelog none (some "e2") none
            { Hostname := "h1", Port := 3306 } DeadMaster 0 emptyAuditState).2
            = Except.error "e2"
        ∧ (AuditInstanceAnalysisInChangelog none none (some "e3")
            { Hostname := "h1", Port := 3306 } DeadMaster 0 emptyAuditState).2
            = Except.error "e3"
        ∧ (ExpireInstanceAnalysisChangelog (some "e1") 24 0 emptyAuditState).2
            = Except.error "e1"
        ∧ (ReadReplicationAnalysisChangelog [] (some "e1")).2 = some "e1") := by
  refine ⟨rfl, ?_⟩
  exact error_propagation_amended cfgNoFilters true [] "conn reset" 0
    emptyAuditState emptyAuditState { Hostname := "h1", Port := 3306 } DeadMaster
    none none "e1" "e2" "e3" 24 [] rfl

/-- C10: a configured exclusion pattern on which the regexp engine always
errors matches nothing at the call site (the error return is discarded),
prepending it to the filter list changes neither the returned result list
nor the returned error, which stays the query error. -/
theorem invalid_pattern_ignored (cfg : Configuration) (includeDowntimed : Bool)
    (inputs : List InputRow) (queryErr : Option DBError) (now : Nat)
    (st0 : AuditState) (p : String)
    (hp : ∀ s, ∃ err, cfg.rmatch p s = Except.error err) :
    (∀ host, matchStringMatched (cfg.rmatch p host) = false)
      ∧ (GetReplicationAnalysis
            { cfg with RecoveryIgnoreHostnameFilters :=
                p :: cfg.RecoveryIgnoreHostnameFilters }
            includeDowntimed inputs queryErr now st0).result
          = (GetReplicationAnalysis cfg includeDowntimed inputs queryErr now
              st0).result
      ∧ (GetReplicationAnalysis
            { cfg with RecoveryIgnoreHostnameFilters :=
                p :: cfg.RecoveryIgnoreHostnameFilters }
            includeDowntimed inputs queryErr now st0).err = queryErr := by
  have hm : ∀ host, matchStringMatched (cfg.rmatch p host) = false := by
    intro host
    obtain ⟨err, herr⟩ := hp host
    rw [herr]
    rfl
  obtain ⟨hres, hst, hcalls, herr⟩ := getReplicationAnalysis_components
    { cfg with RecoveryIgnoreHostnameFilters :=
        p :: cfg.RecoveryIgnoreHostnameFilters }
    includeDowntimed inputs queryErr now st0
  obtain ⟨hres0, hst0, hcalls0, herr0⟩ :=
    getReplicationAnalysis_components cfg includeDowntimed inputs queryErr now st0
  refine ⟨hm, ?_, herr⟩
  rw [hres, hres0]
  unfold includedRows
  have hmap : inputs.map (rowAnalysis
      { cfg with RecoveryIgnoreHostnameFilters :=
          p :: cfg.RecoveryIgnoreHostnameFilters })
      = inputs.map (rowAnalysis cfg) := rfl
  rw [hmap]
  apply List.filter_congr
  intro a _
  simp [reportable, skipThisHost, matchesAnyFilter, hm]

/-- C10 witness: with a regexp oracle that fails to compile every pattern,
prepending the pattern text of an unbalanced parenthesis to the filters of a
one-row pass changes nothing and surfaces no error. -/
theorem invalid_pattern_ignored_witness :
    (∀ host, matchStringMatched (cfgBrokenRegex.rmatch "(" host) = false)
      ∧ (GetReplicationAnalysis
            { cfgBrokenRegex with RecoveryIgnoreHostnameFilters :=
                ["("] }
            false [sampleRow "h"] none 0 emptyAuditState).result
          = (GetReplicationAnalysis cfgBrokenRegex false [sampleRow "h"] none 0
              emptyAuditState).result
      ∧ (GetReplicationAnalysis
            { cfgBrokenRegex with RecoveryIgnoreHostnameFilters :=
                ["("] }
            false [sampleRow "h"] none 0 emptyAuditState).err = none := by
  exact invalid_pattern_ignored cfgBrokenRegex false [sampleRow "h"] none 0
    emptyAuditState "("
    (fun s => ⟨"missing closing paren", rfl⟩)

end OrchAnalysis
